import Mathlib

/-!
# Verification of the calorie-tracker backend (src/app.py)

Shallow embedding of the Flask application in `src/app.py`: the two database
models (`User`, `Meal`), the request handlers `save_meal`, `create_user`,
`upload_meal`, `get_meal_history`, and the analysis helper
`analyze_image_with_openai`.

Modelling conventions:
- Timestamps are seconds since the epoch as `Nat`; the `YYYY-MM-DD` calendar
  day of a timestamp is its quotient by `secondsPerDay`.  Lexicographic order
  on the zero-padded `YYYY-MM-DD` strings used by the handler agrees with the
  numeric order of these day numbers, so dates are embedded as day numbers.
- Numeric meal fields (SQLAlchemy `Float` columns) are embedded as `ℚ`.
- JSON / form fields that may be absent are `Option`-valued; the Python
  falsiness test `if not x` on ids and usernames is modelled explicitly
  (absent, `0`, and the empty string are falsy).
- An unhandled Python exception inside a handler without a matching `except`
  block reaches the Flask default error handler, which answers status 500; the
  embedding returns status 500 on those paths.
- The external OpenAI chat-completion call is an opaque parameter `oracle`
  (prompt and image in, reply or transport failure out); the `base64.b64encode`
  step is an opaque parameter `encode`.  No claim depends on their values.
- The database session is a pair of lists of rows; `db.session.add` followed
  by `db.session.commit` appends a row.  The SQLite backend used by the app
  does not enforce foreign keys by default, and the schema carries no check
  constraints, so inserts are modelled as unconditional appends.
-/

namespace CalorieTracker

/-- Seconds in one calendar day: a timestamp `ts` prints as the `YYYY-MM-DD`
string of day `ts / secondsPerDay`. -/
def secondsPerDay : Nat := 86400

/-- Row of the `user` table (`class User`, src/app.py lines 32-36). -/
structure User where
  id : Nat
  username : String
  created_at : Nat
deriving DecidableEq, Repr

/-- Row of the `meal` table (`class Meal`, src/app.py lines 38-48). -/
structure Meal where
  id : Nat
  date : Nat
  weight : ℚ
  description : String
  calories : ℚ
  protein : ℚ
  carbs : ℚ
  fat : ℚ
  image_data : Option String
  user_id : Nat
deriving DecidableEq, Repr

/-- The relational store: the two tables. -/
structure DB where
  users : List User
  meals : List Meal
deriving DecidableEq, Repr

/-- The calendar day a meal timestamp truncates to: the date component the
handler uses for bucketing and display. -/
def mealDay (m : Meal) : Nat := m.date / secondsPerDay

/-! ## `/meal_history` (get_meal_history, src/app.py lines 233-294) -/

/-- One value of the `meals_by_date` dict: the four running macro totals
for a day. -/
structure DayTotals where
  calories : ℚ
  protein : ℚ
  carbs : ℚ
  fat : ℚ
deriving DecidableEq, Repr

/-- The zero-valued bucket every day in range is initialised to
(src/app.py lines 262-267). -/
def zeroTotals : DayTotals := ⟨0, 0, 0, 0⟩

/-- The four nutrition fields of a meal, as a bucket increment. -/
def mealTotals (m : Meal) : DayTotals := ⟨m.calories, m.protein, m.carbs, m.fat⟩

/-- Componentwise addition of bucket totals (the four `+=` lines,
src/app.py lines 273-276). -/
def DayTotals.add (a b : DayTotals) : DayTotals :=
  ⟨a.calories + b.calories, a.protein + b.protein, a.carbs + b.carbs, a.fat + b.fat⟩

/-- The query of src/app.py lines 249-253: meals of the user with
`start_date <= date < end_date` (where `end_date` is the parsed `end` plus one
day), ordered by `date`.  `startDay` and `endDay` are the parsed `start` and
`end` query parameters as day numbers, so the bounds are the midnight
timestamps `startDay * secondsPerDay` and `(endDay + 1) * secondsPerDay`. -/
def historyMeals (db : DB) (uid startDay endDay : Nat) : List Meal :=
  (db.meals.filter fun m =>
      decide (startDay * secondsPerDay ≤ m.date ∧
        m.date < (endDay + 1) * secondsPerDay ∧ m.user_id = uid)).insertionSort
    (fun a b => a.date ≤ b.date)

/-- One step of the accumulation loop (src/app.py lines 271-276): add the
four fields of the meal into the bucket of its calendar day.  The dict is embedded
as a total function; the handler only ever reads days of the initialised
range and only ever writes days of meals the range query returned, which lie
in that range. -/
def addMeal (buckets : Nat → DayTotals) (m : Meal) : Nat → DayTotals :=
  fun d => if d = mealDay m then (buckets d).add (mealTotals m) else buckets d

/-- The keys initialised by the `while current_date < end_date` loop
(src/app.py lines 259-268), in insertion order: every day from `startDay` to
`endDay` inclusive. -/
def daysRange (startDay endDay : Nat) : List Nat :=
  (List.range (endDay + 1 - startDay)).map (fun i => startDay + i)

/-- The JSON body answered by `/meal_history` (src/app.py lines 281-287):
the sorted date list and the four parallel per-day sequences. -/
structure HistoryResponse where
  dates : List Nat
  calories : List ℚ
  protein : List ℚ
  carbs : List ℚ
  fat : List ℚ
deriving DecidableEq, Repr

/-- The `/meal_history` handler (src/app.py lines 233-294) after successful
parameter parsing: `uid`, `startDay`, `endDay` are the parsed `user_id`,
`start` and `end` query parameters.  The Python `sorted` builtin (a stable
sort) over the dict keys is embedded as a stable sort over the
insertion-ordered key list, as is the `order_by` of the meal query. -/
def get_meal_history (db : DB) (uid startDay endDay : Nat) : HistoryResponse :=
  let meals := historyMeals db uid startDay endDay
  let buckets := meals.foldl addMeal (fun _ => zeroTotals)
  let dates := (daysRange startDay endDay).insertionSort (· ≤ ·)
  { dates := dates
    calories := dates.map fun d => (buckets d).calories
    protein := dates.map fun d => (buckets d).protein
    carbs := dates.map fun d => (buckets d).carbs
    fat := dates.map fun d => (buckets d).fat }

/-- All meals of user `uid` in the store whose timestamp truncates to day
`d` — the reference collection the summation claims compare against. -/
def userMealsOnDay (db : DB) (uid d : Nat) : List Meal :=
  db.meals.filter fun m => decide (m.user_id = uid ∧ mealDay m = d)

/-- Sum of one numeric field over a list of meals. -/
def sumOf (g : Meal → ℚ) (l : List Meal) : ℚ := (l.map g).sum

/-- Concrete store used by witnesses: one user (id 7) with a single 500-kcal
meal logged during day 0, and no meal on day 1. -/
def dbW : DB := ⟨[⟨7, "alice", 0⟩], [⟨1, 3600, 200, "toast", 500, 10, 20, 5, none, 7⟩]⟩

/-! ## `/save_meal` (save_meal, src/app.py lines 184-206) -/

/-- The JSON body of a `POST /save_meal` request; every field the handler
reads is `Option`-valued because `request.json` may lack it. -/
structure SaveMealBody where
  user_id : Option Nat
  weight : Option ℚ
  description : Option String
  calories : Option ℚ
  protein : Option ℚ
  carbs : Option ℚ
  fat : Option ℚ
  image_data : Option String
deriving DecidableEq, Repr

/-- Status code plus resulting store, for handlers that may write. -/
structure HandlerResult where
  status : Nat
  db : DB
deriving DecidableEq, Repr

/-- The `/save_meal` handler (src/app.py lines 184-206).  It reads the
`user_id` field with `.get` and rejects an absent or zero id with 400 via
`if not user_id`.  The six required fields are read by subscripting the JSON
dict: if any is absent the `KeyError`
escapes the handler (it has no try block) and Flask answers 500.  Otherwise
the row is appended unconditionally — the handler performs no existence check
on `user_id` and no bounds check on any numeric field.  `newId` and `now` are
the autoincrement id and the `datetime.utcnow` default. -/
def save_meal (db : DB) (body : SaveMealBody) (newId now : Nat) : HandlerResult :=
  match body.user_id with
  | none => ⟨400, db⟩
  | some uid =>
    if uid = 0 then ⟨400, db⟩
    else
      match body.weight, body.description, body.calories,
          body.protein, body.carbs, body.fat with
      | some w, some d, some c, some p, some cb, some f =>
        ⟨200, { db with
          meals := db.meals ++ [⟨newId, now, w, d, c, p, cb, f, body.image_data, uid⟩] }⟩
      | _, _, _, _, _, _ => ⟨500, db⟩

/-! ## `/users` POST (create_user, src/app.py lines 306-326) -/

/-- The `POST /users` handler (src/app.py lines 306-326): 400 if the username
is absent or falsy, 400 if a row with that username already exists, otherwise
append the new row. -/
def create_user (db : DB) (username : Option String) (newId now : Nat) : HandlerResult :=
  match username with
  | none => ⟨400, db⟩
  | some u =>
    if u = "" then ⟨400, db⟩
    else if db.users.any (fun x => decide (x.username = u)) then ⟨400, db⟩
    else ⟨200, { db with users := db.users ++ [⟨newId, u, now⟩] }⟩

/-- Number of stored users carrying a given username. -/
def countUsername (db : DB) (u : String) : Nat :=
  (db.users.filter fun x => decide (x.username = u)).length

/-! ## `/upload` (upload_meal, src/app.py lines 139-182) and the analysis
helper (analyze_image_with_openai, src/app.py lines 54-133) -/

/-- One entry of `request.files`: the name and raw bytes of the uploaded file. -/
structure FilePart where
  filename : String
  content : String
deriving DecidableEq, Repr

/-- A `POST /upload` multipart request: the file parts keyed by field name and
the two form fields the handler reads. -/
structure UploadRequest where
  files : List (String × FilePart)
  weightField : Option String
  mealDetailsField : Option String
deriving DecidableEq, Repr

/-- The Python `str.strip()` operation: the string with leading and trailing
whitespace removed. -/
def pyStrip (s : String) : String :=
  ⟨((s.data.dropWhile Char.isWhitespace).reverse.dropWhile Char.isWhitespace).reverse⟩

/-- Model of the Python `float()` conversion applied to the weight form
field, on the unsigned decimal literals this form produces; any other string
is a conversion failure (`ValueError`). -/
def parseFloat (s : String) : Option ℚ :=
  match s.splitOn "." with
  | [a] => (a.toNat?).map (fun n => (n : ℚ))
  | [a, b] =>
    match a.toNat?, b.toNat? with
    | some n, some f => some ((n : ℚ) + (f : ℚ) / (10 : ℚ) ^ b.length)
    | _, _ => none
  | _ => none

/-- Extraction of the weight form field, src/app.py line 148
(`float(request.form.get(..., 0))`): an absent field defaults to `0`, which
cannot fail to convert; a present field is converted by `float`, which may
raise. -/
def getWeight (req : UploadRequest) : Option ℚ :=
  match req.weightField with
  | none => some 0
  | some s => parseFloat s

/-- The prompt constructed in src/app.py lines 64-67 (numeric rendering of the
weight by `toString`). -/
def promptText (weight : ℚ) (meal_details : Option String) : String :=
  let base := "This is a meal weighing " ++ toString weight ++
    "g (not including the plate)."
  let base2 := match meal_details with
    | some d => base ++ " Additional details provided: " ++ d ++ "."
    | none => base
  base2 ++ " Please identify the ingredients and estimate its nutritional content."

/-- Result of the analysis helper: the value returned or the exception raised,
plus whether the outbound network request to the model provider was made. -/
structure AnalyzeOutcome where
  result : Except String String
  networkCalled : Bool
deriving Repr

/-- The helper `analyze_image_with_openai` (src/app.py lines 54-133).  With
no `OPENAI_API_KEY` configured it raises `ValueError` before any network
request; otherwise it performs exactly one outbound call, modelled by the
opaque `oracle` (which may itself fail: transport or model-side errors
re-raise out of the helper). -/
def analyze_image_with_openai (apiKey : Option String)
    (oracle : String → String → Except String String)
    (image_data : String) (weight : ℚ) (meal_details : Option String) :
    AnalyzeOutcome :=
  match apiKey with
  | none => ⟨.error "OpenAI API key is not configured", false⟩
  | some _ => ⟨oracle (promptText weight meal_details) image_data, true⟩

/-- The arguments `upload_meal` passed to `analyze_image_with_openai`, when it
invoked the helper at all. -/
structure AnalyzeCall where
  image_data : String
  weight : ℚ
  meal_details : Option String
deriving DecidableEq, Repr

/-- Observable outcome of a `POST /upload`: status code, whether the outbound
model call happened, and with which arguments the analysis helper was
invoked (if it was). -/
structure UploadResult where
  status : Nat
  networkCalled : Bool
  analyzeArgs : Option AnalyzeCall
deriving DecidableEq, Repr

/-- The `/upload` handler (src/app.py lines 139-182).  Checks, in source
order: missing `meal_photo` part → 400; weight extraction per `getWeight` —
an absent field defaults to `0`, an unconvertible string raises and the outer
`except` answers 500; empty filename → 400.  Then the file is read, base64
encoded (opaque `encode`), and the analysis helper is invoked; a raise from it
is caught by the inner `except` and answered 500, a value is answered 200. -/
def upload_meal (apiKey : Option String)
    (oracle : String → String → Except String String)
    (encode : String → String) (req : UploadRequest) : UploadResult :=
  match req.files.lookup "meal_photo" with
  | none => ⟨400, false, none⟩
  | some file =>
    match getWeight req with
    | none => ⟨500, false, none⟩
    | some weight =>
      let mealDetails := pyStrip (req.mealDetailsField.getD "")
      if file.filename = "" then ⟨400, false, none⟩
      else
        let image_data := encode file.content
        let details := if mealDetails = "" then none else some mealDetails
        let outcome := analyze_image_with_openai apiKey oracle image_data weight details
        match outcome.result with
        | .error _ => ⟨500, outcome.networkCalled, some ⟨image_data, weight, details⟩⟩
        | .ok _ => ⟨200, outcome.networkCalled, some ⟨image_data, weight, details⟩⟩


/-! ## Helper lemmas for the `/meal_history` aggregation -/

/-- The initialised key list is strictly increasing. -/
theorem daysRange_pairwise_lt (s e : Nat) : (daysRange s e).Pairwise (· < ·) := by
  unfold daysRange
  exact List.Pairwise.map _ (fun a b h => by omega) (List.pairwise_lt_range _)

/-- Membership in the initialised key list is exactly the inclusive range. -/
theorem mem_daysRange {s e d : Nat} (hse : s ≤ e) : d ∈ daysRange s e ↔ s ≤ d ∧ d ≤ e := by
  unfold daysRange
  simp only [List.mem_map, List.mem_range]
  constructor
  · rintro ⟨i, hi, rfl⟩
    omega
  · intro h
    exact ⟨d - s, by omega, by omega⟩

/-- Length of the initialised key list. -/
theorem daysRange_length (s e : Nat) : (daysRange s e).length = e + 1 - s := by
  simp [daysRange]

/-- Sorting the already ascending key list leaves it unchanged. -/
theorem insertionSort_daysRange (s e : Nat) :
    (daysRange s e).insertionSort (· ≤ ·) = daysRange s e :=
  List.eq_of_perm_of_sorted (List.perm_insertionSort _ _)
    (List.sorted_insertionSort _ _)
    ((daysRange_pairwise_lt s e).imp fun h => Nat.le_of_lt h)

/-- Unrolling the accumulation loop: the bucket of day `d` after folding a
meal list holds the initial value plus the componentwise sums over the meals
of that day. -/
theorem foldl_addMeal (l : List Meal) (f : Nat → DayTotals) (d : Nat) :
    l.foldl addMeal f d =
      ⟨(f d).calories + sumOf Meal.calories (l.filter fun m => decide (mealDay m = d)),
       (f d).protein + sumOf Meal.protein (l.filter fun m => decide (mealDay m = d)),
       (f d).carbs + sumOf Meal.carbs (l.filter fun m => decide (mealDay m = d)),
       (f d).fat + sumOf Meal.fat (l.filter fun m => decide (mealDay m = d))⟩ := by
  induction l generalizing f with
  | nil =>
    simp only [List.foldl_nil, List.filter_nil, sumOf, List.map_nil, List.sum_nil, add_zero]
  | cons m l ih =>
    simp only [List.foldl_cons]
    rw [ih]
    by_cases hd : mealDay m = d
    · subst hd
      have hfilter : (m :: l).filter (fun x => decide (mealDay x = mealDay m)) =
          m :: l.filter (fun x => decide (mealDay x = mealDay m)) := by
        simp [List.filter_cons]
      have haddm : addMeal f m (mealDay m) = (f (mealDay m)).add (mealTotals m) := by
        simp [addMeal]
      rw [hfilter, haddm]
      simp only [sumOf, List.map_cons, List.sum_cons, DayTotals.add, mealTotals,
        DayTotals.mk.injEq]
      exact ⟨by ring, by ring, by ring, by ring⟩
    · have hfilter : (m :: l).filter (fun x => decide (mealDay x = d)) =
          l.filter (fun x => decide (mealDay x = d)) := by
        simp [List.filter_cons, hd]
      have haddm : addMeal f m d = f d := by
        simp only [addMeal]
        rw [if_neg (fun h => hd h.symm)]
      rw [hfilter, haddm]

/-- For a day inside the requested range, restricting the range query to that
day gives (up to order) exactly the meals of the user on that day: the
timestamp-range filter is redundant once the calendar day is fixed. -/
theorem historyMeals_filter_day (db : DB) (uid s e d : Nat) (h1 : s ≤ d) (h2 : d ≤ e) :
    ((historyMeals db uid s e).filter fun m => decide (mealDay m = d)).Perm
      (userMealsOnDay db uid d) := by
  unfold historyMeals userMealsOnDay
  refine ((List.perm_insertionSort _ _).filter _).trans ?_
  rw [List.filter_filter]
  have hEq : (db.meals.filter fun m => decide (mealDay m = d) &&
      decide (s * secondsPerDay ≤ m.date ∧
        m.date < (e + 1) * secondsPerDay ∧ m.user_id = uid)) =
      db.meals.filter fun m => decide (m.user_id = uid ∧ mealDay m = d) := by
    apply List.filter_congr
    intro m hm
    simp only [← Bool.decide_and, decide_eq_decide]
    simp only [mealDay, secondsPerDay]
    omega
  rw [hEq]

/-- The final bucket of a day inside the range equals the componentwise sums
over all meals of the user on that day. -/
theorem history_bucket_eq (db : DB) (uid s e d : Nat) (h1 : s ≤ d) (h2 : d ≤ e) :
    (historyMeals db uid s e).foldl addMeal (fun _ => zeroTotals) d =
      ⟨sumOf Meal.calories (userMealsOnDay db uid d),
       sumOf Meal.protein (userMealsOnDay db uid d),
       sumOf Meal.carbs (userMealsOnDay db uid d),
       sumOf Meal.fat (userMealsOnDay db uid d)⟩ := by
  rw [foldl_addMeal]
  have hp := historyMeals_filter_day db uid s e d h1 h2
  have h3 : ∀ g : Meal → ℚ,
      sumOf g ((historyMeals db uid s e).filter fun m => decide (mealDay m = d)) =
      sumOf g (userMealsOnDay db uid d) :=
    fun g => List.Perm.sum_eq (hp.map g)
  simp [zeroTotals, h3]

/-- Closed form of the `/meal_history` response for a well-formed range: the
date list is the inclusive day range and each nutrient sequence maps each day
to the sum of that field over the meals of the user on that day. -/
theorem get_meal_history_eq (db : DB) (uid s e : Nat) (hse : s ≤ e) :
    get_meal_history db uid s e =
      { dates := daysRange s e
        calories := (daysRange s e).map fun d => sumOf Meal.calories (userMealsOnDay db uid d)
        protein := (daysRange s e).map fun d => sumOf Meal.protein (userMealsOnDay db uid d)
        carbs := (daysRange s e).map fun d => sumOf Meal.carbs (userMealsOnDay db uid d)
        fat := (daysRange s e).map fun d => sumOf Meal.fat (userMealsOnDay db uid d) } := by
  simp only [get_meal_history]
  rw [insertionSort_daysRange]
  simp only [HistoryResponse.mk.injEq]
  refine ⟨trivial, ?_, ?_, ?_, ?_⟩ <;>
  · apply List.map_congr_left
    intro d hd
    obtain ⟨hd1, hd2⟩ := (mem_daysRange hse).mp hd
    rw [history_bucket_eq db uid s e d hd1 hd2]

/-! ## The claims -/

/-- C1: for a valid `/meal_history` request with `start ≤ end`, the response
has exactly one entry per calendar day of the inclusive range (the date list
and all four nutrient lists have length `end - start + 1`, and a day is
listed iff it lies in the range), the date list is strictly ascending, and at
any index whose day has no meals of the user all four nutrient values are
zero. -/
theorem meal_history_day_grid (db : DB) (uid s e d i : Nat) (hse : s ≤ e)
    (hi : i < (get_meal_history db uid s e).dates.length)
    (hempty : userMealsOnDay db uid ((get_meal_history db uid s e).dates.getD i 0) = []) :
    (get_meal_history db uid s e).dates.length = e - s + 1 ∧
    (get_meal_history db uid s e).calories.length = e - s + 1 ∧
    (get_meal_history db uid s e).protein.length = e - s + 1 ∧
    (get_meal_history db uid s e).carbs.length = e - s + 1 ∧
    (get_meal_history db uid s e).fat.length = e - s + 1 ∧
    (get_meal_history db uid s e).dates.Pairwise (· < ·) ∧
    (d ∈ (get_meal_history db uid s e).dates ↔ s ≤ d ∧ d ≤ e) ∧
    (get_meal_history db uid s e).calories.getD i 0 = 0 ∧
    (get_meal_history db uid s e).protein.getD i 0 = 0 ∧
    (get_meal_history db uid s e).carbs.getD i 0 = 0 ∧
    (get_meal_history db uid s e).fat.getD i 0 = 0 := by
  have hR := get_meal_history_eq db uid s e hse
  rw [hR] at hi hempty ⊢
  dsimp only at hi hempty ⊢
  have hlen : (daysRange s e).length = e - s + 1 := by
    rw [daysRange_length]; omega
  have hzero : ∀ g : Meal → ℚ,
      ((daysRange s e).map fun x => sumOf g (userMealsOnDay db uid x)).getD i 0 = 0 := by
    intro g
    rw [List.getD_eq_getElem _ _ (by simpa using hi), List.getElem_map]
    rw [List.getD_eq_getElem _ _ hi] at hempty
    rw [hempty]
    simp [sumOf]
  refine ⟨hlen, ?_, ?_, ?_, ?_, daysRange_pairwise_lt s e, mem_daysRange hse,
      hzero _, hzero _, hzero _, hzero _⟩ <;>
    simp [hlen]

/-- C1 witness: on the concrete store `dbW` with range day 0 to day 1, day 1
has no meals of user 7 and its calorie entry is 0. -/
theorem meal_history_day_grid_witness :
    ((0 : Nat) ≤ 1 ∧ 1 < (get_meal_history dbW 7 0 1).dates.length ∧
      userMealsOnDay dbW 7 ((get_meal_history dbW 7 0 1).dates.getD 1 0) = []) ∧
    (get_meal_history dbW 7 0 1).calories.getD 1 0 = 0 :=
  ⟨⟨by decide, by decide, by decide⟩,
    (meal_history_day_grid dbW 7 0 1 1 1 (by decide) (by decide)
        (by decide)).2.2.2.2.2.2.2.1⟩

/-- C2: for a valid `/meal_history` request with `start ≤ end` and any valid
index `i`, the four nutrient values at `i` are exactly the sums of the
corresponding fields over all meals of the user whose timestamp truncates to
the calendar day listed at `i`. -/
theorem meal_history_summation (db : DB) (uid s e i : Nat) (hse : s ≤ e)
    (hi : i < (get_meal_history db uid s e).dates.length) :
    (get_meal_history db uid s e).calories.getD i 0 =
      sumOf Meal.calories
        (userMealsOnDay db uid ((get_meal_history db uid s e).dates.getD i 0)) ∧
    (get_meal_history db uid s e).protein.getD i 0 =
      sumOf Meal.protein
        (userMealsOnDay db uid ((get_meal_history db uid s e).dates.getD i 0)) ∧
    (get_meal_history db uid s e).carbs.getD i 0 =
      sumOf Meal.carbs
        (userMealsOnDay db uid ((get_meal_history db uid s e).dates.getD i 0)) ∧
    (get_meal_history db uid s e).fat.getD i 0 =
      sumOf Meal.fat
        (userMealsOnDay db uid ((get_meal_history db uid s e).dates.getD i 0)) := by
  have hR := get_meal_history_eq db uid s e hse
  rw [hR] at hi ⊢
  dsimp only at hi ⊢
  have hval : ∀ g : Meal → ℚ,
      ((daysRange s e).map fun x => sumOf g (userMealsOnDay db uid x)).getD i 0 =
      sumOf g (userMealsOnDay db uid ((daysRange s e).getD i 0)) := by
    intro g
    rw [List.getD_eq_getElem _ _ (by simpa using hi), List.getElem_map,
      List.getD_eq_getElem _ _ hi]
  exact ⟨hval _, hval _, hval _, hval _⟩

/-- C2 witness: on the concrete store `dbW`, the calorie entry at index 0
equals the calorie sum over the meals of user 7 on the day listed there. -/
theorem meal_history_summation_witness :
    ((0 : Nat) ≤ 1 ∧ 0 < (get_meal_history dbW 7 0 1).dates.length) ∧
    (get_meal_history dbW 7 0 1).calories.getD 0 0 =
      sumOf Meal.calories
        (userMealsOnDay dbW 7 ((get_meal_history dbW 7 0 1).dates.getD 0 0)) :=
  ⟨⟨by decide, by decide⟩,
    (meal_history_summation dbW 7 0 1 0 (by decide) (by decide)).1⟩

/-- C3 counterexample: with an empty user table, a `save_meal` request whose
`user_id` is 1 — referencing no existing user — is not rejected: it answers
success and stores the meal row. -/
theorem save_meal_dangling_user_counterexample :
    (DB.mk [] []).users = [] ∧
    (save_meal ⟨[], []⟩ ⟨some 1, some 100, some "toast", some 300, some 10, some 30,
        some 12, none⟩ 1 0).status = 200 ∧
    (save_meal ⟨[], []⟩ ⟨some 1, some 100, some "toast", some 300, some 10, some 30,
        some 12, none⟩ 1 0).db.meals =
      [⟨1, 0, 100, "toast", 300, 10, 30, 12, none, 1⟩] := by
  refine ⟨rfl, ?_, ?_⟩ <;> decide

/-- C3 (amended): `save_meal` rejects only an absent or falsy `user_id`; a
request carrying a nonzero `user_id` and all required fields is accepted and
its meal row stored with that `user_id` even when no user row matches it —
the handler performs no existence check, so the foreign-key invariant is not
enforced at creation. -/
theorem save_meal_no_user_check (db : DB) (body : SaveMealBody) (newId now uid : Nat)
    (w c p cb f : ℚ) (de : String)
    (hu : body.user_id = some uid) (hnz : uid ≠ 0)
    (hw : body.weight = some w) (hd : body.description = some de)
    (hc : body.calories = some c) (hp : body.protein = some p)
    (hcb : body.carbs = some cb) (hf : body.fat = some f)
    (hdangling : ∀ x ∈ db.users, x.id ≠ uid) :
    (save_meal db body newId now).status = 200 ∧
    (save_meal db body newId now).db.meals =
      db.meals ++ [⟨newId, now, w, de, c, p, cb, f, body.image_data, uid⟩] ∧
    (save_meal db body newId now).db.users = db.users := by
  simp [save_meal, hu, hnz, hw, hd, hc, hp, hcb, hf]

/-- C3 witness: the amended behaviour on a concrete request against an empty
store. -/
theorem save_meal_no_user_check_witness :
    ((SaveMealBody.mk (some 1) (some 100) (some "toast") (some 300) (some 10) (some 30)
        (some 12) none).user_id = some 1 ∧ (1 : Nat) ≠ 0 ∧
      (∀ x ∈ (DB.mk [] []).users, x.id ≠ 1)) ∧
    (save_meal ⟨[], []⟩ (SaveMealBody.mk (some 1) (some 100) (some "toast") (some 300)
        (some 10) (some 30) (some 12) none) 1 0).status = 200 :=
  ⟨⟨rfl, by decide, by simp⟩,
    (save_meal_no_user_check ⟨[], []⟩ _ 1 0 1 100 300 10 30 12 "toast" rfl (by decide)
      rfl rfl rfl rfl rfl rfl (by simp)).1⟩

/-- C4: a `save_meal` request whose body lacks `user_id` answers 400 and
leaves the store unchanged — no meal row is created. -/
theorem save_meal_missing_user_id (db : DB) (body : SaveMealBody) (newId now : Nat)
    (h : body.user_id = none) :
    (save_meal db body newId now).status = 400 ∧
    (save_meal db body newId now).db = db := by
  simp [save_meal, h]

/-- C4 witness: a concrete body without `user_id` is rejected with 400. -/
theorem save_meal_missing_user_id_witness :
    (SaveMealBody.mk none (some 100) (some "toast") (some 300) (some 10) (some 30)
        (some 12) none).user_id = none ∧
    (save_meal ⟨[], []⟩ (SaveMealBody.mk none (some 100) (some "toast") (some 300)
        (some 10) (some 30) (some 12) none) 1 0).status = 400 :=
  ⟨rfl, (save_meal_missing_user_id ⟨[], []⟩ _ 1 0 rfl).1⟩

/-- C5: creating a username into a store without it succeeds and leaves
exactly one row with that username; repeating the request on the resulting
store — or on any store already containing the username — answers 400 and
changes nothing. -/
theorem create_user_idempotent_rejecting (db db2 : DB) (u : String)
    (newId now nid2 n2 : Nat)
    (hu : u ≠ "") (hnew : ∀ x ∈ db.users, x.username ≠ u)
    (hhas : ∃ x ∈ db2.users, x.username = u) :
    (create_user db (some u) newId now).status = 200 ∧
    countUsername (create_user db (some u) newId now).db u = 1 ∧
    create_user (create_user db (some u) newId now).db (some u) nid2 n2 =
      ⟨400, (create_user db (some u) newId now).db⟩ ∧
    create_user db2 (some u) nid2 n2 = ⟨400, db2⟩ := by
  have hany : db.users.any (fun x => decide (x.username = u)) = false := by
    simp only [List.any_eq_false, decide_eq_true_eq]
    exact hnew
  have hfilter : db.users.filter (fun x => decide (x.username = u)) = [] := by
    rw [List.filter_eq_nil_iff]
    intro x hx
    simpa using hnew x hx
  have h1 : create_user db (some u) newId now =
      ⟨200, { db with users := db.users ++ [⟨newId, u, now⟩] }⟩ := by
    simp [create_user, hu, hany]
  refine ⟨by rw [h1], ?_, ?_, ?_⟩
  · rw [h1]
    simp [countUsername, List.filter_append, hfilter]
  · rw [h1]
    have : ({ db with users := db.users ++ [⟨newId, u, now⟩] } : DB).users.any
        (fun x => decide (x.username = u)) = true := by
      simp [List.any_eq_true]
    simp [create_user, hu, this]
  · obtain ⟨x, hx, hxu⟩ := hhas
    have hany2 : db2.users.any (fun y => decide (y.username = u)) = true := by
      rw [List.any_eq_true]
      exact ⟨x, hx, by simpa using hxu⟩
    simp [create_user, hu, hany2]

/-- C5 witness: creating bob into an empty store succeeds with one stored
row, and creating bob again on a store holding bob answers 400 unchanged. -/
theorem create_user_idempotent_rejecting_witness :
    ("bob" ≠ "" ∧ (∀ x ∈ (DB.mk [] []).users, x.username ≠ "bob") ∧
      (∃ x ∈ (DB.mk [⟨1, "bob", 0⟩] []).users, x.username = "bob")) ∧
    (create_user ⟨[], []⟩ (some "bob") 1 0).status = 200 ∧
    countUsername (create_user ⟨[], []⟩ (some "bob") 1 0).db "bob" = 1 ∧
    create_user ⟨[⟨1, "bob", 0⟩], []⟩ (some "bob") 2 5 = ⟨400, ⟨[⟨1, "bob", 0⟩], []⟩⟩ :=
  ⟨⟨by decide, by decide, ⟨⟨1, "bob", 0⟩, by decide, rfl⟩⟩,
    (create_user_idempotent_rejecting ⟨[], []⟩ ⟨[⟨1, "bob", 0⟩], []⟩ "bob" 1 0 2 5
        (by decide) (by decide) ⟨⟨1, "bob", 0⟩, by decide, rfl⟩).1,
    (create_user_idempotent_rejecting ⟨[], []⟩ ⟨[⟨1, "bob", 0⟩], []⟩ "bob" 1 0 2 5
        (by decide) (by decide) ⟨⟨1, "bob", 0⟩, by decide, rfl⟩).2.1,
    (create_user_idempotent_rejecting ⟨[], []⟩ ⟨[⟨1, "bob", 0⟩], []⟩ "bob" 1 0 2 5
        (by decide) (by decide) ⟨⟨1, "bob", 0⟩, by decide, rfl⟩).2.2.2⟩

/-- C6: an `/upload` request with no `meal_photo` file part answers 400, makes
no outbound model call, and never invokes the analysis helper. -/
theorem upload_no_file (apiKey : Option String)
    (oracle : String → String → Except String String)
    (encode : String → String) (req : UploadRequest)
    (h : req.files.lookup "meal_photo" = none) :
    upload_meal apiKey oracle encode req = ⟨400, false, none⟩ := by
  simp [upload_meal, h]

/-- C6 witness: a concrete request carrying only an unrelated file part is
rejected with 400 and no model call. -/
theorem upload_no_file_witness :
    (UploadRequest.mk [("other_field", ⟨"a.jpg", "B"⟩)] (some "150")
        none).files.lookup "meal_photo" = none ∧
    upload_meal (some "key") (fun _ _ => Except.ok "reply") (fun s => s)
      ⟨[("other_field", ⟨"a.jpg", "B"⟩)], some "150", none⟩ = ⟨400, false, none⟩ :=
  ⟨by decide, upload_no_file _ _ _ _ (by decide)⟩

/-- C7 counterexample: a `save_meal` body with `user_id` but no `weight`
answers 500 — the unhandled `KeyError` path — not the 400 the claim states. -/
theorem save_meal_missing_field_counterexample :
    (SaveMealBody.mk (some 1) none (some "x") (some 1) (some 2) (some 3) (some 4)
        none).weight = none ∧
    (save_meal ⟨[], []⟩ (SaveMealBody.mk (some 1) none (some "x") (some 1) (some 2)
        (some 3) (some 4) none) 1 0).status = 500 ∧
    (save_meal ⟨[], []⟩ (SaveMealBody.mk (some 1) none (some "x") (some 1) (some 2)
        (some 3) (some 4) none) 1 0).status ≠ 400 := by
  refine ⟨rfl, ?_, ?_⟩ <;> decide

/-- C7 (amended): a `save_meal` request with a truthy `user_id` but missing
any of the six required body fields fails with status 500 — the missing key
raises an unhandled `KeyError` that reaches the framework default handler —
and no meal row is created. -/
theorem save_meal_missing_field_500 (db : DB) (body : SaveMealBody) (newId now uid : Nat)
    (hu : body.user_id = some uid) (hnz : uid ≠ 0)
    (hmiss : body.weight = none ∨ body.description = none ∨ body.calories = none ∨
      body.protein = none ∨ body.carbs = none ∨ body.fat = none) :
    (save_meal db body newId now).status = 500 ∧
    (save_meal db body newId now).db = db := by
  rcases hw : body.weight with _ | w <;>
  rcases hd : body.description with _ | de <;>
  rcases hc : body.calories with _ | c <;>
  rcases hp : body.protein with _ | p <;>
  rcases hcb : body.carbs with _ | cb <;>
  rcases hf : body.fat with _ | f <;>
    simp_all [save_meal]

/-- C7 witness: the amended behaviour on a concrete body without `weight`. -/
theorem save_meal_missing_field_500_witness :
    ((SaveMealBody.mk (some 1) none (some "x") (some 1) (some 2) (some 3) (some 4)
        none).user_id = some 1 ∧ (1 : Nat) ≠ 0 ∧
      (SaveMealBody.mk (some 1) none (some "x") (some 1) (some 2) (some 3) (some 4)
        none).weight = none) ∧
    (save_meal ⟨[], []⟩ (SaveMealBody.mk (some 1) none (some "x") (some 1) (some 2)
        (some 3) (some 4) none) 1 0).status = 500 :=
  ⟨⟨rfl, by decide, rfl⟩,
    (save_meal_missing_field_500 ⟨[], []⟩ _ 1 0 1 rfl (by decide) (Or.inl rfl)).1⟩

/-- C8: with no `OPENAI_API_KEY` configured, an `/upload` request with a valid
file answers 500 and no outbound network request is made — the analysis
helper aborts before calling the model. -/
theorem upload_missing_api_key (oracle : String → String → Except String String)
    (encode : String → String) (req : UploadRequest) (file : FilePart) (w : ℚ)
    (hf : req.files.lookup "meal_photo" = some file)
    (hn : file.filename ≠ "")
    (hw : getWeight req = some w) :
    (upload_meal none oracle encode req).status = 500 ∧
    (upload_meal none oracle encode req).networkCalled = false := by
  simp [upload_meal, hf, hw, hn, analyze_image_with_openai]

/-- C8 witness: a concrete valid upload with the credential absent answers
500 without a network call. -/
theorem upload_missing_api_key_witness :
    ((UploadRequest.mk [("meal_photo", ⟨"a.jpg", "B"⟩)] none none).files.lookup
        "meal_photo" = some ⟨"a.jpg", "B"⟩ ∧
      (FilePart.mk "a.jpg" "B").filename ≠ "" ∧
      getWeight ⟨[("meal_photo", ⟨"a.jpg", "B"⟩)], none, none⟩ = some 0) ∧
    (upload_meal none (fun _ _ => Except.ok "reply") (fun s => s)
        ⟨[("meal_photo", ⟨"a.jpg", "B"⟩)], none, none⟩).status = 500 ∧
    (upload_meal none (fun _ _ => Except.ok "reply") (fun s => s)
        ⟨[("meal_photo", ⟨"a.jpg", "B"⟩)], none, none⟩).networkCalled = false :=
  ⟨⟨by decide, by decide, by decide⟩,
    upload_missing_api_key (fun _ _ => Except.ok "reply") (fun s => s)
      ⟨[("meal_photo", ⟨"a.jpg", "B"⟩)], none, none⟩ ⟨"a.jpg", "B"⟩ 0
      (by decide) (by decide) (by decide)⟩

/-- C9 counterexample: a `save_meal` request with weight `-1` and calories
`-5` is accepted with status 200 and the violating row is stored, although
the weight is not positive and the calories are negative. -/
theorem save_meal_no_validation_counterexample :
    (save_meal ⟨[⟨1, "alice", 0⟩], []⟩ ⟨some 1, some (-1), some "x", some (-5), some 2,
        some 3, some 4, none⟩ 1 0).status = 200 ∧
    (save_meal ⟨[⟨1, "alice", 0⟩], []⟩ ⟨some 1, some (-1), some "x", some (-5), some 2,
        some 3, some 4, none⟩ 1 0).db.meals =
      [⟨1, 0, -1, "x", -5, 2, 3, 4, none, 1⟩] ∧
    ¬ (0 : ℚ) < -1 ∧ ¬ (0 : ℚ) ≤ -5 := by
  refine ⟨?_, ?_, ?_, ?_⟩ <;> decide

/-- C9 (amended): `save_meal` performs no bounds validation: a complete body
with a truthy `user_id` is accepted and its row stored exactly as sent even
when the weight is non-positive or a nutrition field is negative. -/
theorem save_meal_no_bounds_check (db : DB) (body : SaveMealBody) (newId now uid : Nat)
    (w c p cb f : ℚ) (de : String)
    (hu : body.user_id = some uid) (hnz : uid ≠ 0)
    (hw : body.weight = some w) (hd : body.description = some de)
    (hc : body.calories = some c) (hp : body.protein = some p)
    (hcb : body.carbs = some cb) (hf : body.fat = some f)
    (hviol : w ≤ 0 ∨ c < 0 ∨ p < 0 ∨ cb < 0 ∨ f < 0) :
    (save_meal db body newId now).status = 200 ∧
    (save_meal db body newId now).db.meals =
      db.meals ++ [⟨newId, now, w, de, c, p, cb, f, body.image_data, uid⟩] := by
  simp [save_meal, hu, hnz, hw, hd, hc, hp, hcb, hf]

/-- C9 witness: the amended behaviour on a concrete violating body. -/
theorem save_meal_no_bounds_check_witness :
    ((-1 : ℚ) ≤ 0 ∧
      (SaveMealBody.mk (some 1) (some (-1)) (some "x") (some (-5)) (some 2) (some 3)
        (some 4) none).weight = some (-1)) ∧
    (save_meal ⟨[⟨1, "alice", 0⟩], []⟩ (SaveMealBody.mk (some 1) (some (-1)) (some "x")
        (some (-5)) (some 2) (some 3) (some 4) none) 1 0).status = 200 :=
  ⟨⟨by decide, rfl⟩,
    (save_meal_no_bounds_check ⟨[⟨1, "alice", 0⟩], []⟩ _ 1 0 1 (-1) (-5) 2 3 4 "x"
      rfl (by decide) rfl rfl rfl rfl rfl rfl (Or.inl (by decide))).1⟩

/-- C10: an `/upload` request with a valid file but no weight form field is
not rejected as a client error: the weight silently defaults to 0, the
analysis helper is invoked with weight 0, and — whenever the credential is
present — the model is called with the prompt built from weight 0. -/
theorem upload_default_weight (apiKey : Option String)
    (oracle : String → String → Except String String)
    (encode : String → String) (req : UploadRequest) (file : FilePart)
    (k img : String) (det : Option String)
    (hf : req.files.lookup "meal_photo" = some file)
    (hn : file.filename ≠ "")
    (hw : req.weightField = none) :
    (upload_meal apiKey oracle encode req).status ≠ 400 ∧
    (upload_meal apiKey oracle encode req).analyzeArgs =
      some ⟨encode file.content, 0,
        if pyStrip (req.mealDetailsField.getD "") = "" then none
        else some (pyStrip (req.mealDetailsField.getD ""))⟩ ∧
    analyze_image_with_openai (some k) oracle img 0 det =
      ⟨oracle (promptText 0 det) img, true⟩ := by
  have hgw : getWeight req = some 0 := by simp [getWeight, hw]
  refine ⟨?_, ?_, rfl⟩ <;>
  · simp only [upload_meal, hf, hgw]
    rcases hres : (analyze_image_with_openai apiKey oracle (encode file.content) 0
        (if pyStrip (req.mealDetailsField.getD "") = "" then none
         else some (pyStrip (req.mealDetailsField.getD "")))).result with e | v <;>
      simp [hn, hres]

/-- C10 witness: a concrete upload without a weight field still reaches the
analysis helper, with weight 0 and the stripped detail text. -/
theorem upload_default_weight_witness :
    ((UploadRequest.mk [("meal_photo", ⟨"a.jpg", "B"⟩)] none (some " rice ")).files.lookup
        "meal_photo" = some ⟨"a.jpg", "B"⟩ ∧
      (FilePart.mk "a.jpg" "B").filename ≠ "" ∧
      (UploadRequest.mk [("meal_photo", ⟨"a.jpg", "B"⟩)] none
        (some " rice ")).weightField = none) ∧
    (upload_meal (some "key") (fun _ _ => Except.ok "reply") (fun s => s)
        ⟨[("meal_photo", ⟨"a.jpg", "B"⟩)], none, some " rice "⟩).analyzeArgs =
      some ⟨(fun s => s) (FilePart.mk "a.jpg" "B").content, 0,
        if pyStrip ((UploadRequest.mk [("meal_photo", ⟨"a.jpg", "B"⟩)] none
            (some " rice ")).mealDetailsField.getD "") = "" then none
        else some (pyStrip ((UploadRequest.mk [("meal_photo", ⟨"a.jpg", "B"⟩)] none
            (some " rice ")).mealDetailsField.getD ""))⟩ :=
  ⟨⟨by decide, by decide, rfl⟩,
    (upload_default_weight (some "key") (fun _ _ => Except.ok "reply") (fun s => s)
      ⟨[("meal_photo", ⟨"a.jpg", "B"⟩)], none, some " rice "⟩ ⟨"a.jpg", "B"⟩
      "key" "img" none (by decide) (by decide) rfl).2.1⟩

end CalorieTracker
